import Mathlib

/-!
# Verification of the parking-spot backend (src/main.py)

A shallow embedding of the single-file FastAPI application. Python floats
are modelled by `Rat`: the code performs no arithmetic on coordinates, it
only passes them through, so any exact value type is faithful. The SQLite
store backing the SQLAlchemy session is modelled as a list of rows plus a
next-id counter; the outbound geocoding HTTP call is modelled by an
explicit `NetOutcome` argument standing for what `requests.get(url).json()`
would produce (a parsed JSON document, or a raised exception).
-/

namespace Parking

/-- The hardcoded configuration constant (src/main.py line 11); the value
is the placeholder that marks the credential as unconfigured. -/
def GOOGLE_MAPS_API_KEY : String := "YOUR_GOOGLE_MAPS_API_KEY"

/-- One element of the geocoding response's `results` array, as the code
reads it: only `formatted_address` is accessed, and the key may be absent
(absence raises `KeyError` in Python). -/
structure GeoResult where
  formatted_address : Option String
  deriving Repr, DecidableEq

/-- The parsed geocoding JSON document as the code reads it:
`data.get('status')` (absent key gives `None`) and `data['results']`. -/
structure GeoData where
  status : Option String
  results : List GeoResult
  deriving Repr, DecidableEq

/-- Outcome of `requests.get(url)` followed by `response.json()`: either a
parsed document, or a raised exception (timeout, connection error,
malformed body) carrying its message. -/
inductive NetOutcome where
  | ok (data : GeoData)
  | exn (msg : String)
  deriving Repr, DecidableEq

/-- The URL built at src/main.py line 79. -/
def geocode_url (lat lng : Rat) (key : String) : String :=
  "https://maps.googleapis.com/maps/api/geocode/json?latlng=" ++
    toString lat ++ "," ++ toString lng ++ "&key=" ++ key

/-- Body of the `try` block at src/main.py lines 85-90, given parsed data:
`Except.error` marks a Python exception escaping the block (the
`IndexError` of `data['results'][0]` on an empty array, or the `KeyError`
of a missing `formatted_address`), to be absorbed by the `except` clause. -/
def geocode_try_body (data : GeoData) : Except String String :=
  if data.status = some "OK" then
    match data.results with
    | [] => .error "IndexError: list index out of range"
    | r :: _ =>
      match r.formatted_address with
      | some a => .ok a
      | none => .error "KeyError: formatted_address"
  else
    .ok "Address not found"

/-- `get_address_from_google` (src/main.py lines 72-94), parameterized by
the configured key and by the network outcome. When the key equals the
placeholder the function returns before the URL is built or any request is
issued, so the result cannot depend on `net`. A `NetOutcome.exn` models
`requests.get`/`response.json` raising; any exception raised inside the
`try` block (transport failure or extraction failure) lands in the
catch-all `except` clause. -/
def get_address_from_google (key : String) (net : NetOutcome)
    (lat lng : Rat) : String :=
  if key = "YOUR_GOOGLE_MAPS_API_KEY" then
    "Address lookup disabled (API Key missing)"
  else
    let _url := geocode_url lat lng key
    match net with
    | .exn _ => "Error retrieving address"
    | .ok data =>
      match geocode_try_body data with
      | .ok s => s
      | .error _ => "Error retrieving address"

/-- A row of the `parking_spots` table (`ParkingSpotDB`, src/main.py lines
21-29). `address` and `owner_name` are nullable columns, hence `Option`;
`is_active` carries the column default `True` when the constructor omits
it. -/
structure ParkingSpotDB where
  id : Nat
  latitude : Rat
  longitude : Rat
  address : Option String
  owner_name : Option String
  is_active : Bool
  deriving Repr, DecidableEq

/-- The deserialized request body after pydantic validation
(`ParkingSpotCreate`, src/main.py lines 36-39): `owner_name` has Python
type `str | None` with default `"Anonymous"`. -/
structure ParkingSpotCreate where
  latitude : Rat
  longitude : Rat
  owner_name : Option String
  deriving Repr, DecidableEq

/-- A raw JSON request body before validation. `owner_name = none` means
the field is absent from the JSON object; `some v` means it is present
with value `v` (`v = none` being JSON `null`). -/
structure RequestBody where
  latitude : Rat
  longitude : Rat
  owner_name : Option (Option String)
  deriving Repr, DecidableEq

/-- Pydantic deserialization of a body that passed type validation: an
absent `owner_name` receives the declared default `"Anonymous"`. -/
def ParkingSpotCreate.parse (b : RequestBody) : ParkingSpotCreate :=
  { latitude := b.latitude
    longitude := b.longitude
    owner_name :=
      match b.owner_name with
      | none => some "Anonymous"
      | some v => v }

/-- The SQLite-backed store reached through the SQLAlchemy session: the
rows of `parking_spots` and the next auto-assigned primary key. -/
structure Store where
  rows : List ParkingSpotDB
  nextId : Nat
  deriving Repr, DecidableEq

/-- The state after `Base.metadata.create_all`: an empty table. -/
def Store.empty : Store := ⟨[], 1⟩

/-- `db.add` + `db.commit` + `db.refresh` (src/main.py lines 114-117) on a
`ParkingSpotDB(latitude=.., longitude=.., address=.., owner_name=..)`
constructor call: the committed row carries the store-assigned id and the
column defaults for the omitted `is_active` field. Returns the refreshed
row and the new store state. -/
def Store.insert (s : Store) (latitude longitude : Rat)
    (address : Option String) (owner_name : Option String) :
    ParkingSpotDB × Store :=
  let row : ParkingSpotDB :=
    { id := s.nextId
      latitude := latitude
      longitude := longitude
      address := address
      owner_name := owner_name
      is_active := true }
  (row, ⟨s.rows ++ [row], s.nextId + 1⟩)

/-- The success body returned by `mark_parking_spot` (src/main.py lines
119-125), shaped by `response_model=ParkingSpotResponse` (lines 42-47):
exactly the fields `id`, `latitude`, `longitude`, `address`, `message`. -/
structure ParkingSpotResponse where
  id : Nat
  latitude : Rat
  longitude : Rat
  address : Option String
  message : String
  deriving Repr, DecidableEq

/-- What an invocation of the create handler produces: a success body, an
`HTTPException`-style error response raised deliberately by handler code
(status code plus detail string), or an exception that the handler never
caught and that propagates to the framework. -/
inductive HandlerOutcome where
  | success (r : ParkingSpotResponse)
  | httpError (code : Nat) (detail : String)
  | propagated (exn : String)
  deriving Repr, DecidableEq

/-- `POST /mark-spot/` (`mark_parking_spot`, src/main.py lines 98-125).
`dbFault = some e` models `db.add`/`db.commit` raising an exception with
message `e` (the failed transaction is rolled back, so the store is
unchanged); the handler body contains no `try`/`except`, so such an
exception leaves the handler as `HandlerOutcome.propagated`. -/
def mark_parking_spot (key : String) (net : NetOutcome)
    (dbFault : Option String) (spot : ParkingSpotCreate) (db : Store) :
    HandlerOutcome × Store :=
  let readable_address := get_address_from_google key net spot.latitude spot.longitude
  match dbFault with
  | some e => (.propagated e, db)
  | none =>
    let ins := db.insert spot.latitude spot.longitude
      (some readable_address) spot.owner_name
    let new_spot := ins.1
    (.success
      { id := new_spot.id
        latitude := new_spot.latitude
        longitude := new_spot.longitude
        address := new_spot.address
        message := "Garden successfully marked as parking spot!" },
     ins.2)

/-- `GET /spots/` (`get_all_spots`, src/main.py lines 127-132):
`db.query(ParkingSpotDB).all()` returns every row, in insertion order as
SQLite happens to produce it, with no filter and no mutation. -/
def get_all_spots (db : Store) : List ParkingSpotDB × Store :=
  (db.rows, db)

/-- The health-check body of `GET /` (src/main.py lines 135-137). -/
structure RootResponse where
  message : String
  deriving Repr, DecidableEq

/-- `GET /` (`read_root`): the handler touches no state and returns a
constant payload. -/
def read_root (db : Store) : RootResponse × Store :=
  ({ message := "Parking Backend is running!" }, db)

/-- Runs a sequence of create requests (each given its key, network
outcome and parsed body), all succeeding at the store (`dbFault = none`). -/
def run_creates (reqs : List (String × NetOutcome × ParkingSpotCreate))
    (db : Store) : Store :=
  reqs.foldl (fun s r => (mark_parking_spot r.1 r.2.1 none r.2.2 s).2) db

/-- The store states reachable from the empty table through the three
endpoints (creates may also fail at the store). -/
inductive Reachable : Store → Prop where
  | empty : Reachable Store.empty
  | create (key : String) (net : NetOutcome) (dbFault : Option String)
      (spot : ParkingSpotCreate) {s : Store} (h : Reachable s) :
      Reachable (mark_parking_spot key net dbFault spot s).2
  | list {s : Store} (h : Reachable s) : Reachable (get_all_spots s).2
  | root {s : Store} (h : Reachable s) : Reachable (read_root s).2

end Parking

/-! ## Helper lemmas -/

namespace Parking

/-- A store-successful create appends exactly one row. -/
theorem run_creates_length (reqs : List (String × NetOutcome × ParkingSpotCreate)) :
    ∀ db : Store, (run_creates reqs db).rows.length = db.rows.length + reqs.length := by
  induction reqs with
  | nil => intro db; simp [run_creates]
  | cons r rs ih =>
    intro db
    have h1 : run_creates (r :: rs) db =
        run_creates rs (mark_parking_spot r.1 r.2.1 none r.2.2 db).2 := rfl
    rw [h1, ih]
    simp [mark_parking_spot, Store.insert]
    omega

end Parking

/-! ## Claim theorems -/

namespace Parking

/-- C1: for every create-spot request whose body deserializes successfully
(and whose store insert succeeds, since the claim speaks of the success
response), the response is exactly the five-field record
`{id, latitude, longitude, address, message}` of `ParkingSpotResponse`,
with `latitude` and `longitude` equal to the submitted values exactly and
`id` the store-assigned identifier. -/
theorem create_success_response_fields (key : String) (net : NetOutcome)
    (spot : ParkingSpotCreate) (db : Store) :
    (mark_parking_spot key net none spot db).1 =
      .success
        { id := db.nextId
          latitude := spot.latitude
          longitude := spot.longitude
          address := some (get_address_from_google key net spot.latitude spot.longitude)
          message := "Garden successfully marked as parking spot!" } := rfl

/-- C2: a create-spot request whose JSON body omits the `owner_name` field
stores a record whose `owner_name` column holds exactly the pydantic
default `"Anonymous"`. -/
theorem omitted_owner_name_stored_anonymous (key : String) (net : NetOutcome)
    (body : RequestBody) (db : Store) (h : body.owner_name = none) :
    (mark_parking_spot key net none (ParkingSpotCreate.parse body) db).2.rows =
      db.rows ++
        [{ id := db.nextId
           latitude := body.latitude
           longitude := body.longitude
           address := some (get_address_from_google key net body.latitude body.longitude)
           owner_name := some "Anonymous"
           is_active := true }] := by
  simp [mark_parking_spot, Store.insert, ParkingSpotCreate.parse, h]

theorem omitted_owner_name_stored_anonymous_witness :
    (mark_parking_spot "YOUR_GOOGLE_MAPS_API_KEY" (.exn "down") none
        (ParkingSpotCreate.parse ⟨(37.7749 : ℚ), (-122.4194 : ℚ), none⟩)
        Store.empty).2.rows =
      Store.empty.rows ++
        [{ id := Store.empty.nextId
           latitude := (37.7749 : ℚ)
           longitude := (-122.4194 : ℚ)
           address := some (get_address_from_google "YOUR_GOOGLE_MAPS_API_KEY"
             (.exn "down") (37.7749 : ℚ) (-122.4194 : ℚ))
           owner_name := some "Anonymous"
           is_active := true }] :=
  omitted_owner_name_stored_anonymous "YOUR_GOOGLE_MAPS_API_KEY" (.exn "down")
    ⟨(37.7749 : ℚ), (-122.4194 : ℚ), none⟩ Store.empty rfl

/-- C3 counterexample: with the unconfigured (placeholder) credential the
resolver returns the string `"Address lookup disabled (API Key missing)"`,
which is not the string `"Address lookup disabled"` that the claim
states. -/
theorem disabled_sentinel_counterexample :
    get_address_from_google "YOUR_GOOGLE_MAPS_API_KEY" (.exn "connection refused")
        (37.7749 : ℚ) (-(122.4194 : ℚ)) =
      "Address lookup disabled (API Key missing)" ∧
    get_address_from_google "YOUR_GOOGLE_MAPS_API_KEY" (.exn "connection refused")
        (37.7749 : ℚ) (-(122.4194 : ℚ)) ≠ "Address lookup disabled" :=
  ⟨rfl, by decide⟩

/-- C3 (amended): whenever the configured credential equals the known
placeholder value, the resolver returns, for every coordinate pair, the
fixed sentinel string `"Address lookup disabled (API Key missing)"`, and
the result is independent of the network outcome `net` — the early return
happens before any outbound request is issued. -/
theorem disabled_key_fixed_sentinel_no_call (net : NetOutcome) (lat lng : Rat) :
    get_address_from_google GOOGLE_MAPS_API_KEY net lat lng =
      "Address lookup disabled (API Key missing)" := rfl

/-- C4: with a configured (non-placeholder) credential, a geocoding
response whose `status` is anything other than `"OK"` yields the fixed
sentinel `"Address not found"`, and a transport-level failure (modelled by
`NetOutcome.exn`) yields the fixed sentinel `"Error retrieving address"`.
The resolver is a total Lean function into `String`, so no exception
reaches the caller in any case. -/
theorem configured_key_failure_sentinels (key : String) (lat lng : Rat)
    (hk : key ≠ "YOUR_GOOGLE_MAPS_API_KEY") :
    (∀ data : GeoData, data.status ≠ some "OK" →
        get_address_from_google key (.ok data) lat lng = "Address not found") ∧
    (∀ msg : String,
        get_address_from_google key (.exn msg) lat lng = "Error retrieving address") := by
  constructor
  · intro data hs
    simp [get_address_from_google, hk, geocode_try_body, hs]
  · intro msg
    simp [get_address_from_google, hk]

theorem configured_key_failure_sentinels_witness :
    get_address_from_google "real-key" (.ok ⟨some "ZERO_RESULTS", []⟩) 0 0
        = "Address not found" ∧
    get_address_from_google "real-key" (.exn "timeout") 0 0
        = "Error retrieving address" :=
  ⟨(configured_key_failure_sentinels "real-key" 0 0 (by decide)).1
      ⟨some "ZERO_RESULTS", []⟩ (by decide),
   (configured_key_failure_sentinels "real-key" 0 0 (by decide)).2 "timeout"⟩

/-- C5 counterexample: when the store insert raises (here with message
`"database is locked"`), the handler — which contains no `try`/`except` —
does not catch the exception and return a server-error response; the
exception propagates out of the handler unchanged. -/
theorem store_exception_not_caught_counterexample :
    (mark_parking_spot "k" (.exn "net") (some "database is locked")
        ⟨(1 : ℚ), (2 : ℚ), some "Alice"⟩ Store.empty).1 =
      .propagated "database is locked" ∧
    (mark_parking_spot "k" (.exn "net") (some "database is locked")
        ⟨(1 : ℚ), (2 : ℚ), some "Alice"⟩ Store.empty).1 ≠
      .httpError 500 "database is locked" :=
  ⟨rfl, by decide⟩

/-- C5 (amended): if the store insert raises an exception, the handler
does not catch it — the exception propagates out of the handler unchanged
(so the framework produces a server error and no success body is
returned), and the rolled-back store is left unchanged. -/
theorem store_exception_propagates (key : String) (net : NetOutcome)
    (e : String) (spot : ParkingSpotCreate) (db : Store) :
    mark_parking_spot key net (some e) spot db = (.propagated e, db) := rfl

end Parking

namespace Parking

/-- Decidable form of the `is_active` invariant: every stored row is
active. -/
def allActive (s : Store) : Bool :=
  s.rows.all (fun row => row.is_active)

/-- Decidable form of the non-null-address invariant: every stored row has
a non-`NULL` `address` column. -/
def allAddressPresent (s : Store) : Bool :=
  s.rows.all (fun row => row.address.isSome)

/-- C6: starting from the empty store, after N store-successful create
operations and no other state-changing operation, `GET /spots/` returns a
sequence of exactly N records. -/
theorem list_spots_after_n_creates
    (reqs : List (String × NetOutcome × ParkingSpotCreate)) :
    (get_all_spots (run_creates reqs Store.empty)).1.length = reqs.length := by
  have h := run_creates_length reqs Store.empty
  simpa [get_all_spots, Store.empty] using h

/-- C7: in every reachable store state every stored spot has
`is_active = true` — the insert path fills the column with its default
`True` and no operation mutates it — and `get_all_spots` returns all
stored rows unfiltered, leaving the state unchanged. -/
theorem reachable_spots_always_active (s : Store) (h : Reachable s) :
    allActive s = true ∧ get_all_spots s = (s.rows, s) := by
  refine ⟨?_, rfl⟩
  induction h with
  | empty => rfl
  | create key net dbFault spot h ih =>
    cases dbFault with
    | some e => exact ih
    | none =>
      simpa [allActive, mark_parking_spot, Store.insert, List.all_append] using ih
  | list h ih => exact ih
  | root h ih => exact ih

theorem reachable_spots_always_active_witness :
    allActive (mark_parking_spot "k" (.exn "t") none
        ⟨(1 : ℚ), (2 : ℚ), some "Alice"⟩ Store.empty).2 = true ∧
      get_all_spots (mark_parking_spot "k" (.exn "t") none
          ⟨(1 : ℚ), (2 : ℚ), some "Alice"⟩ Store.empty).2 =
        ((mark_parking_spot "k" (.exn "t") none
            ⟨(1 : ℚ), (2 : ℚ), some "Alice"⟩ Store.empty).2.rows,
         (mark_parking_spot "k" (.exn "t") none
            ⟨(1 : ℚ), (2 : ℚ), some "Alice"⟩ Store.empty).2) :=
  reachable_spots_always_active _
    (Reachable.create "k" (.exn "t") none ⟨(1 : ℚ), (2 : ℚ), some "Alice"⟩
      Reachable.empty)

/-- C8: for every store state, `GET /` returns the same fixed payload
`{"message": "Parking Backend is running!"}` and leaves the store
unchanged. -/
theorem read_root_fixed_no_side_effects (s : Store) :
    read_root s = ({ message := "Parking Backend is running!" }, s) := rfl

/-- C9: the resolver is a total Lean function into `String` (every branch
returns a sentinel or an extracted address), and the create handler always
stores `some` resolver result in the nullable `address` column, so in
every reachable store state every stored record has a non-null string
address. -/
theorem reachable_spots_address_nonnull (s : Store) (h : Reachable s) :
    allAddressPresent s = true := by
  induction h with
  | empty => rfl
  | create key net dbFault spot h ih =>
    cases dbFault with
    | some e => exact ih
    | none =>
      simpa [allAddressPresent, mark_parking_spot, Store.insert,
        List.all_append] using ih
  | list h ih => exact ih
  | root h ih => exact ih

theorem reachable_spots_address_nonnull_witness :
    allAddressPresent (mark_parking_spot "another-key" (.exn "timeout") none
        ⟨(3 : ℚ), (4 : ℚ), some "Bob"⟩ Store.empty).2 = true :=
  reachable_spots_address_nonnull _
    (Reachable.create "another-key" (.exn "timeout") none
      ⟨(3 : ℚ), (4 : ℚ), some "Bob"⟩ Reachable.empty)

/-- C10: with a configured credential, a geocoding response whose `status`
is `"OK"` but whose `results` array is empty, or whose first element lacks
`formatted_address`, makes the resolver return `"Error retrieving
address"` (the `IndexError`/`KeyError` is swallowed by the catch-all
`except` branch), not `"Address not found"` and not a raised exception. -/
theorem ok_status_extraction_failure_error_sentinel (key : String)
    (lat lng : Rat) (data : GeoData) (hk : key ≠ "YOUR_GOOGLE_MAPS_API_KEY")
    (hs : data.status = some "OK")
    (hr : data.results = [] ∨
      ∃ r rest, data.results = r :: rest ∧ r.formatted_address = none) :
    get_address_from_google key (.ok data) lat lng = "Error retrieving address" ∧
    get_address_from_google key (.ok data) lat lng ≠ "Address not found" := by
  have hmain : get_address_from_google key (.ok data) lat lng
      = "Error retrieving address" := by
    rcases hr with hr | ⟨r, rest, hr, hfa⟩
    · simp [get_address_from_google, hk, geocode_try_body, hs, hr]
    · simp [get_address_from_google, hk, geocode_try_body, hs, hr, hfa]
  refine ⟨hmain, ?_⟩
  rw [hmain]
  decide

theorem ok_status_extraction_failure_error_sentinel_witness :
    get_address_from_google "k" (.ok ⟨some "OK", []⟩) 0 0
        = "Error retrieving address" ∧
    get_address_from_google "k" (.ok ⟨some "OK", []⟩) 0 0
        ≠ "Address not found" :=
  ok_status_extraction_failure_error_sentinel "k" 0 0 ⟨some "OK", []⟩
    (by decide) rfl (Or.inl rfl)

end Parking
